import Mathlib

/-!
Shallow embedding of `omaha/ui/splash_screen.cc` (class `SplashScreen`).

The splash screen is a five-state machine over the member fields `state_`,
`alpha_index_` and `timer_created_`.  We model the controller state together
with the environment facts the code interacts with (whether the native window
exists, whether the OS close-timer is installed, which window messages are
pending, whether the worker thread has been started and whether its message
loop is running), and each C++ member function as a function
`Sys → Sys × List Eff` returning the successor state and the list of
observable side effects it performed.

Win32 message semantics used by the model: `WM_TIMER` messages are generated
only when the message queue is otherwise empty, so a posted `WM_CLOSE` is
always processed before any further timer tick; `DestroyWindow` (called by
the `WM_CLOSE` handler) delivers `WM_DESTROY` synchronously; and
`PostQuitMessage` makes the message loop exit, after which `Run` switches the
state to `STATE_CLOSED` and the worker thread returns.  `ASSERT1` is modelled
as the observable effect `Eff.assertFired` (debug builds stop there, release
builds continue), and the success of `Create`/`SetTimer` is an environment
input passed as a `Bool` parameter.
-/

namespace Omaha

/-- Window states of `SplashScreen` (`WindowState` in `splash_screen.h`),
in declaration order `STATE_CREATED`, `STATE_INITIALIZED`,
`STATE_SHOW_NORMAL`, `STATE_FADING`, `STATE_CLOSED`. -/
inductive WindowState where
  | created
  | initialized
  | showNormal
  | fading
  | closed
deriving DecidableEq, Repr

/-- Full opacity scale: `const int kDefaultAlphaScale = 100`. -/
def kDefaultAlphaScale : Int := 100

/-- Alpha blending values for the fading effect:
`const int kAlphaScales[] = { 0, 30, 47, 62, 75, 85, 93, kDefaultAlphaScale }`. -/
def kAlphaScales : List Int := [0, 30, 47, 62, 75, 85, 93, kDefaultAlphaScale]

/-- Conversion `AlphaScaleToAlphaValue`:
`static_cast<uint8>(alpha_scale * 255 / 100)`.  C++ `int` division truncates
toward zero (`Int.tdiv`) and the cast to `uint8` reduces modulo 2^8
(`Int.emod 256`, which is non-negative). -/
def AlphaScaleToAlphaValue (alpha_scale : Int) : Int :=
  ((alpha_scale * 255).tdiv 100).emod 256

/-- The modelled state: the three lock-guarded member fields of
`SplashScreen` (`state_`, `alpha_index_`, `timer_created_`) plus the
environment facts the code depends on: `window` is `IsWindow()` (the native
window exists), `timerOn` says the OS close-timer is currently installed
(`SetTimer` done, `KillTimer` not yet), `closePending` says a `WM_CLOSE`
posted by `Close()` is waiting in the queue, `quitPosted` says
`PostQuitMessage` has run, `pendingRun` says `thread_.Start` happened but the
thread procedure `Run` has not executed yet, and `loopRunning` says the
worker thread is inside `message_loop.Run()`. -/
structure Sys where
  state : WindowState
  alpha_index : Int
  timer_created : Bool
  window : Bool
  timerOn : Bool
  closePending : Bool
  quitPosted : Bool
  pendingRun : Bool
  loopRunning : Bool
deriving DecidableEq, Repr

/-- Observable side effects of the member functions. -/
inductive Eff where
  | threadStart
  | applyOpacity (v : Int)
  | requestClose
  | killTimer
  | postQuit
  | assertFired
deriving DecidableEq, Repr

/-- Member function `SplashScreen::Close`:
posts `WM_CLOSE` when `state_ != STATE_CLOSED && IsWindow()`. -/
def Close (s : Sys) : Sys × List Eff :=
  if s.state ≠ WindowState.closed ∧ s.window = true then
    ({ s with closePending := true }, [Eff.requestClose])
  else
    (s, [])

/-- Member function `SplashScreen::SwitchToState`.  `arm_ok` is the
environment outcome of `SetTimer(kClosingTimerID, kTimerInterval, NULL)` in
the `STATE_FADING` arm (`true` iff `SetTimer` returned non-zero); when arming
fails the code logs a warning and calls `Close()` directly.  Entering
`STATE_SHOW_NORMAL` sets `alpha_index_ = arraysize(kAlphaScales) - 1`.  The
`ASSERT1(IsWindow())` of the fading arm is modelled as `assertFired`. -/
def SwitchToState (s : Sys) (new_state : WindowState) (arm_ok : Bool) :
    Sys × List Eff :=
  let s₀ := { s with state := new_state }
  match new_state with
  | WindowState.created => (s₀, [])
  | WindowState.initialized => (s₀, [])
  | WindowState.showNormal =>
      ({ s₀ with alpha_index := (kAlphaScales.length : Int) - 1 }, [])
  | WindowState.fading =>
      let asserts := if s₀.window = true then [] else [Eff.assertFired]
      let s₁ := { s₀ with timer_created := arm_ok, timerOn := arm_ok }
      if arm_ok then (s₁, asserts)
      else
        let (s₂, e) := Close s₁
        (s₂, asserts ++ e)
  | WindowState.closed => (s₀, [])

/-- Member function `SplashScreen::Show`: starts the worker thread when
`state_ == STATE_CREATED`, otherwise `ASSERT1(false)` and nothing else. -/
def Show (s : Sys) : Sys × List Eff :=
  if s.state = WindowState.created then
    ({ s with pendingRun := true }, [Eff.threadStart])
  else
    (s, [Eff.assertFired])

/-- Member function `SplashScreen::Dismiss`: `STATE_CREATED → STATE_CLOSED`,
`STATE_SHOW_NORMAL → STATE_FADING` (arming the fade timer, outcome `arm_ok`),
and a no-op in `STATE_CLOSED`, `STATE_FADING`, `STATE_INITIALIZED`.  The C++
`default: ASSERT1(false)` branch is unreachable because the enumeration has
exactly these five values, so the Lean match is total without it. -/
def Dismiss (s : Sys) (arm_ok : Bool) : Sys × List Eff :=
  match s.state with
  | WindowState.created => SwitchToState s WindowState.closed arm_ok
  | WindowState.showNormal => SwitchToState s WindowState.fading arm_ok
  | WindowState.closed => (s, [])
  | WindowState.fading => (s, [])
  | WindowState.initialized => (s, [])

/-- Member function `SplashScreen::OnTimer` (`WM_TIMER` handler): asserts
`state_ == STATE_FADING` and `alpha_index_ > 0`, then `if (--alpha_index_)`
re-applies opacity at the new index via `SetLayeredWindowAttributes`, else
calls `Close()`.  A negative index would read out of the bounds of
`kAlphaScales` in the C++ (undefined behaviour); the model clamps via
`Int.toNat`, and the reachability invariant below shows the clamp is never
exercised. -/
def OnTimer (s : Sys) : Sys × List Eff :=
  let asserts :=
    (if s.state = WindowState.fading then [] else [Eff.assertFired]) ++
    (if 0 < s.alpha_index then [] else [Eff.assertFired])
  let a := s.alpha_index - 1
  let s₁ := { s with alpha_index := a }
  if a ≠ 0 then
    (s₁, asserts ++
      [Eff.applyOpacity (AlphaScaleToAlphaValue (kAlphaScales.getD a.toNat 0))])
  else
    let (s₂, e) := Close s₁
    (s₂, asserts ++ e)

/-- Member function `SplashScreen::OnDestroy` (`WM_DESTROY` handler): kills
the close-timer when `timer_created_` is set (with `ASSERT1(IsWindow())`),
then `PostQuitMessage(0)`.  Note the handler does not reset
`timer_created_`. -/
def OnDestroy (s : Sys) : Sys × List Eff :=
  if s.timer_created then
    let asserts := if s.window = true then [] else [Eff.assertFired]
    ({ s with timerOn := false, quitPosted := true },
     asserts ++ [Eff.killTimer, Eff.postQuit])
  else
    ({ s with quitPosted := true }, [Eff.postQuit])

/-- Delivery of the posted `WM_CLOSE`: the message is consumed from the
queue, `SplashScreen::OnClose` calls `DestroyWindow()`, which synchronously
delivers `WM_DESTROY` (handled by `OnDestroy`) and then tears the native
window down. -/
def processCloseMessage (s : Sys) : Sys × List Eff :=
  let s₁ := { s with closePending := false }
  let (s₂, e) := OnDestroy s₁
  ({ s₂ with window := false }, e)

/-- Member function `SplashScreen::Initialize`, run on the worker thread:
`Create(NULL)` (environment outcome `create_ok`; on failure the function
returns `GOOPDATE_E_UI_INTERNAL_ERROR` having changed nothing we model),
then window chrome setup, `SetLayeredWindowAttributes` at
`kDefaultAlphaScale`, and `SwitchToState(STATE_INITIALIZED)`. -/
def InitializeWindow (s : Sys) (create_ok : Bool) : Option (Sys × List Eff) :=
  if create_ok then
    let s₁ := { s with window := true }
    let (s₂, e) := SwitchToState s₁ WindowState.initialized true
    some (s₂, [Eff.applyOpacity (AlphaScaleToAlphaValue kDefaultAlphaScale)] ++ e)
  else
    none

/-- The prefix of `SplashScreen::Run` executed under the lock: return early
unless `state_ == STATE_CREATED`, return early if `Initialize()` failed,
else `ShowWindow(SW_SHOWNORMAL)`, `SwitchToState(STATE_SHOW_NORMAL)` and
enter the message loop (`loopRunning := true`). -/
def RunEntry (s : Sys) (create_ok : Bool) : Sys × List Eff :=
  if s.state ≠ WindowState.created then (s, [])
  else
    match InitializeWindow s create_ok with
    | none => (s, [])
    | some (s₁, e₁) =>
        let (s₂, e₂) := SwitchToState s₁ WindowState.showNormal true
        ({ s₂ with loopRunning := true }, e₁ ++ e₂)

/-- Events of the two-thread system: a `Show` or `Dismiss` call from the
external thread (with the `SetTimer` outcome for `Dismiss`), the worker
thread procedure starting to run (with the `Create` outcome), a `WM_TIMER`
delivery, the delivery of a posted `WM_CLOSE` (with its synchronous
`WM_DESTROY`), and the message loop exiting after `PostQuitMessage`. -/
inductive Ev where
  | showEv
  | dismiss (arm_ok : Bool)
  | runBody (create_ok : Bool)
  | tick
  | closeMsg
  | loopExit
deriving DecidableEq, Repr

/-- A `WM_TIMER` tick can be delivered only while the OS timer is installed,
the message loop is pumping, no posted `WM_CLOSE` is ahead of it in the
queue (Win32 generates `WM_TIMER` only for an otherwise empty queue), and
the loop has not been told to quit. -/
def tickEnabled (s : Sys) : Bool :=
  s.timerOn && s.loopRunning && !s.closePending && !s.quitPosted

/-- One step of the whole system.  Events whose enabling condition does not
hold leave the state unchanged and perform no effects. -/
def step (s : Sys) (e : Ev) : Sys × List Eff :=
  match e with
  | Ev.showEv => Show s
  | Ev.dismiss arm_ok => Dismiss s arm_ok
  | Ev.runBody create_ok =>
      if s.pendingRun then RunEntry { s with pendingRun := false } create_ok
      else (s, [])
  | Ev.tick => if tickEnabled s then OnTimer s else (s, [])
  | Ev.closeMsg =>
      if s.closePending && s.loopRunning then processCloseMessage s
      else (s, [])
  | Ev.loopExit =>
      if s.quitPosted && s.loopRunning then
        SwitchToState { s with loopRunning := false } WindowState.closed true
      else (s, [])

/-- The state after the constructor `SplashScreen::SplashScreen`:
`alpha_index_(0)`, `timer_created_(false)`, `SwitchToState(STATE_CREATED)`;
no window, no timer, no thread yet. -/
def init : Sys :=
  { state := WindowState.created, alpha_index := 0, timer_created := false,
    window := false, timerOn := false, closePending := false,
    quitPosted := false, pendingRun := false, loopRunning := false }

/-- Run a list of events from a state, collecting all effects in order. -/
def run (s : Sys) : List Ev → Sys × List Eff
  | [] => (s, [])
  | e :: evs =>
      let p := step s e
      let q := run p.fst evs
      (q.fst, p.snd ++ q.snd)

/-- Reachability from the freshly constructed object. -/
def Reachable (s : Sys) : Prop :=
  ∃ evs : List Ev, (run init evs).fst = s

/-- Number of opacity-apply side effects in an effect list. -/
def countApply (l : List Eff) : Nat :=
  (l.filter fun e =>
    match e with
    | Eff.applyOpacity _ => true
    | _ => false).length


/-- Order of the states along the lifecycle. -/
def stateRank : WindowState → Nat
  | WindowState.created => 0
  | WindowState.initialized => 1
  | WindowState.showNormal => 2
  | WindowState.fading => 3
  | WindowState.closed => 4

/-- Inductive invariant of the reachable states: the `timer_created_` flag
is set whenever the OS timer is installed; while the timer is installed and
neither a close nor a quit is pending, the machine is fading with a positive
index, the loop pumping and the window alive; in `STATE_CREATED` nothing has
happened yet; `STATE_SHOW_NORMAL` has the full-opacity index and a live
window; a posted `WM_CLOSE` and a posted quit only occur while fading (or,
for the quit, once closed, with the timer already killed); and the alpha
index is never negative. -/
def Inv (s : Sys) : Prop :=
  (s.timerOn = true → s.timer_created = true) ∧
  (s.timerOn = true → s.closePending = false → s.quitPosted = false →
      s.state = WindowState.fading ∧ 1 ≤ s.alpha_index ∧
      s.loopRunning = true ∧ s.window = true) ∧
  (s.state = WindowState.created →
      s.timerOn = false ∧ s.closePending = false ∧ s.quitPosted = false ∧
      s.window = false ∧ s.timer_created = false ∧ s.loopRunning = false) ∧
  (s.state = WindowState.showNormal →
      s.alpha_index = 7 ∧ s.loopRunning = true ∧ s.window = true ∧
      s.timer_created = false ∧ s.timerOn = false) ∧
  (s.closePending = true → s.state = WindowState.fading) ∧
  (s.quitPosted = true →
      s.state = WindowState.fading ∨ s.state = WindowState.closed) ∧
  (s.quitPosted = true → s.timerOn = false) ∧
  (¬(s.closePending = true ∧ s.quitPosted = true)) ∧
  0 ≤ s.alpha_index


/-- Once the machine is fading or closed and the fade timer cannot deliver
another tick (a close is pending, a quit is posted, the timer was killed or
the loop stopped), no later step can ever re-enable the timer. -/
def NoMoreTicks (s : Sys) : Prop :=
  (s.state = WindowState.fading ∨ s.state = WindowState.closed) ∧
  tickEnabled s = false

/-- Event sequence that brings the splash screen to the start of the fade:
the external thread calls `Show()`, the worker thread runs (window creation
succeeds, the state reaches `STATE_SHOW_NORMAL` with `alpha_index_ = 7`),
then the external thread calls `Dismiss()` and `SetTimer` succeeds. -/
def fadeSetup : List Ev := [Ev.showEv, Ev.runBody true, Ev.dismiss true]

/-- The state at the start of the fade (`STATE_FADING`, `alpha_index_ = 7`,
timer armed). -/
def fadeStart : Sys := (run init fadeSetup).fst

/-- A complete lifecycle: show, initialize, dismiss, the seven fade timer
ticks, delivery of the posted `WM_CLOSE` (destroying the window and killing
the timer), and the exit of the message loop. -/
def fullFade : List Ev :=
  fadeSetup ++ List.replicate 7 Ev.tick ++ [Ev.closeMsg, Ev.loopExit]

theorem stateRank_le_step (s : Sys) (e : Ev) :
    stateRank s.state ≤ stateRank (step s e).fst.state := by
  obtain ⟨st, ai, tc, w, ton, cp, qp, pr, lr⟩ := s
  cases e with
  | showEv =>
      simp only [step, Show]
      split <;> simp
  | dismiss a =>
      cases st <;> cases a <;> cases w <;>
        simp [step, Dismiss, SwitchToState, Close, stateRank]
  | runBody c =>
      cases st <;> cases pr <;> cases c <;>
        simp [step, RunEntry, InitializeWindow, SwitchToState, stateRank]
  | tick =>
      simp only [step]
      split
      · simp only [OnTimer]
        split
        · simp
        · simp only [Close]
          split <;> simp
      · simp
  | closeMsg =>
      simp only [step]
      split
      · simp only [processCloseMessage, OnDestroy]
        split <;> simp
      · simp
  | loopExit =>
      simp only [step]
      split
      · simp [SwitchToState, stateRank]
        cases st <;> simp [stateRank]
      · simp

theorem stateRank_le_run (s : Sys) (evs : List Ev) :
    stateRank s.state ≤ stateRank (run s evs).fst.state := by
  induction evs generalizing s with
  | nil => simp [run]
  | cons e evs ih =>
      simp only [run]
      exact le_trans (stateRank_le_step s e) (ih (step s e).fst)

theorem stateRank_eq_four_iff (st : WindowState) :
    stateRank st = 4 ↔ st = WindowState.closed := by
  cases st <;> simp [stateRank]

theorem Inv_init : Inv init := by
  simp [Inv, init]

theorem Inv_step (s : Sys) (e : Ev) (h : Inv s) : Inv (step s e).fst := by
  obtain ⟨st, ai, tc, w, ton, cp, qp, pr, lr⟩ := s
  obtain ⟨h1, h2, h3, h4, h5, h6, h7, h8, h9⟩ := h
  cases e with
  | showEv =>
      simp only [step, Show]
      split <;> exact ⟨h1, h2, h3, h4, h5, h6, h7, h8, h9⟩
  | dismiss a =>
      cases st <;> cases a <;>
        simp_all [step, Dismiss, SwitchToState, Close, Inv] <;>
        omega
  | runBody c =>
      cases st <;> cases pr <;> cases c <;>
        simp_all [step, RunEntry, InitializeWindow, SwitchToState,
                  kAlphaScales, Inv] <;>
        omega
  | tick =>
      simp only [step]
      split
      · rename_i htick
        simp only [tickEnabled, Bool.and_eq_true, Bool.not_eq_true'] at htick
        obtain ⟨⟨⟨hton, hlr⟩, hcp⟩, hqp⟩ := htick
        subst hton; subst hlr; subst hcp; subst hqp
        obtain ⟨hst, hai, -, hw⟩ := h2 rfl rfl rfl
        subst hst; subst hw
        have htc : tc = true := h1 rfl
        subst htc
        by_cases hz : ai - 1 = 0
        · simp_all [OnTimer, Close, Inv] <;> omega
        · simp_all [OnTimer, Close, Inv] <;> omega
      · exact ⟨h1, h2, h3, h4, h5, h6, h7, h8, h9⟩
  | closeMsg =>
      simp only [step]
      split
      · rename_i hcl
        simp only [Bool.and_eq_true] at hcl
        obtain ⟨hcp, hlr⟩ := hcl
        have hst := h5 hcp
        subst hst; subst hcp; subst hlr
        cases tc <;> cases ton <;>
          simp_all [processCloseMessage, OnDestroy, Inv] <;> omega
      · exact ⟨h1, h2, h3, h4, h5, h6, h7, h8, h9⟩
  | loopExit =>
      simp only [step]
      split
      · rename_i hq
        simp only [Bool.and_eq_true] at hq
        obtain ⟨hqp, hlr⟩ := hq
        subst hqp; subst hlr
        simp_all [SwitchToState, Inv] <;> omega
      · exact ⟨h1, h2, h3, h4, h5, h6, h7, h8, h9⟩

theorem Inv_run (s : Sys) (evs : List Ev) (h : Inv s) : Inv (run s evs).fst := by
  induction evs generalizing s with
  | nil => exact h
  | cons e evs ih =>
      simp only [run]
      exact ih (step s e).fst (Inv_step s e h)

theorem Inv_reachable (s : Sys) (h : Reachable s) : Inv s := by
  obtain ⟨evs, hevs⟩ := h
  subst hevs
  exact Inv_run init evs Inv_init

theorem NoMoreTicks_step (s : Sys) (e : Ev) (h : NoMoreTicks s) :
    NoMoreTicks (step s e).fst := by
  obtain ⟨st, ai, tc, w, ton, cp, qp, pr, lr⟩ := s
  obtain ⟨hst, hten⟩ := h
  rcases hst with h' | h' <;> subst h'
  · cases e with
    | showEv => exact ⟨Or.inl rfl, hten⟩
    | dismiss a => exact ⟨Or.inl rfl, hten⟩
    | runBody c => cases pr <;> exact ⟨Or.inl rfl, hten⟩
    | tick =>
        simp only [step, hten, Bool.false_eq_true, if_false]
        exact ⟨Or.inl rfl, hten⟩
    | closeMsg =>
        cases cp <;> cases lr <;> cases tc <;>
          first
            | exact ⟨Or.inl rfl, hten⟩
            | simp_all [NoMoreTicks, step, processCloseMessage, OnDestroy,
                        tickEnabled]
    | loopExit =>
        cases qp <;> cases lr <;>
          first
            | exact ⟨Or.inl rfl, hten⟩
            | simp_all [NoMoreTicks, step, SwitchToState, tickEnabled]
  · cases e with
    | showEv => exact ⟨Or.inr rfl, hten⟩
    | dismiss a => exact ⟨Or.inr rfl, hten⟩
    | runBody c => cases pr <;> exact ⟨Or.inr rfl, hten⟩
    | tick =>
        simp only [step, hten, Bool.false_eq_true, if_false]
        exact ⟨Or.inr rfl, hten⟩
    | closeMsg =>
        cases cp <;> cases lr <;> cases tc <;>
          first
            | exact ⟨Or.inr rfl, hten⟩
            | simp_all [NoMoreTicks, step, processCloseMessage, OnDestroy,
                        tickEnabled]
    | loopExit =>
        cases qp <;> cases lr <;>
          first
            | exact ⟨Or.inr rfl, hten⟩
            | simp_all [NoMoreTicks, step, SwitchToState, tickEnabled]

theorem NoMoreTicks_run (s : Sys) (evs : List Ev) (h : NoMoreTicks s) :
    NoMoreTicks (run s evs).fst := by
  induction evs generalizing s with
  | nil => exact h
  | cons e evs ih =>
      simp only [run]
      exact ih (step s e).fst (NoMoreTicks_step s e h)


end Omaha

namespace Omaha

/-- C10: for every alpha scale s with 0 ≤ s ≤ 100 the conversion returns
exactly (s * 255) / 100 by integer division, the result fits in an unsigned
8-bit value without overflow (0 ≤ v ≤ 255, with 0 mapping to 0 and 100
mapping to 255), and the conversion is monotone over the entries of the
opacity table `kAlphaScales`. -/
theorem C10_alpha_scale_conversion (a : Int) (h0 : 0 ≤ a) (h100 : a ≤ 100) :
    AlphaScaleToAlphaValue a = a * 255 / 100 ∧
    0 ≤ AlphaScaleToAlphaValue a ∧
    AlphaScaleToAlphaValue a ≤ 255 ∧
    AlphaScaleToAlphaValue 0 = 0 ∧
    AlphaScaleToAlphaValue 100 = 255 ∧
    (∀ i j : Nat, i ≤ j → j < kAlphaScales.length →
        AlphaScaleToAlphaValue (kAlphaScales.getD i 0) ≤
          AlphaScaleToAlphaValue (kAlphaScales.getD j 0)) := by
  have hm : (0 : Int) ≤ a * 255 := by omega
  have ht : (a * 255).tdiv 100 = a * 255 / 100 :=
    Int.tdiv_eq_ediv hm (by omega)
  have hnn : 0 ≤ a * 255 / 100 := by omega
  have hub : a * 255 / 100 ≤ 255 := by omega
  have he : (a * 255 / 100).emod 256 = a * 255 / 100 :=
    Int.emod_eq_of_lt hnn (by omega)
  have key : AlphaScaleToAlphaValue a = a * 255 / 100 := by
    unfold AlphaScaleToAlphaValue
    rw [ht]
    exact he
  refine ⟨key, ?_, ?_, by decide, by decide, ?_⟩
  · rw [key]; exact hnn
  · rw [key]; exact hub
  · intro i j hij hj
    have hj8 : j < 8 := by simpa [kAlphaScales] using hj
    interval_cases j <;> interval_cases i <;> decide

/-- Witness for C10 at the concrete scale 100. -/
theorem C10_alpha_scale_conversion_witness : AlphaScaleToAlphaValue 100 = 255 :=
  (C10_alpha_scale_conversion 100 (by decide) (by decide)).2.2.2.2.1

/-- C4: in states CLOSED, FADING and INITIALIZED a `Dismiss()` call leaves
the whole state (in particular `alpha_index_` and the timer flags) unchanged
and performs no side effect, and for every state a repeated `Dismiss()` has
the same effect as one: the second call never changes the state again and
performs no side effect. -/
theorem C4_dismiss_idempotent (s : Sys) (a b : Bool) :
    ((s.state = WindowState.closed ∨ s.state = WindowState.fading ∨
        s.state = WindowState.initialized) → Dismiss s a = (s, [])) ∧
    (Dismiss (Dismiss s a).fst b).fst = (Dismiss s a).fst ∧
    (Dismiss (Dismiss s a).fst b).snd = [] := by
  obtain ⟨st, ai, tc, w, ton, cp, qp, pr, lr⟩ := s
  cases st <;> cases a <;> cases b <;> cases w <;>
    simp [Dismiss, SwitchToState, Close]

/-- Witness for C4 at a concrete FADING state. -/
theorem C4_dismiss_idempotent_witness :
    Dismiss { init with state := WindowState.fading } true =
      ({ init with state := WindowState.fading }, []) :=
  (C4_dismiss_idempotent { init with state := WindowState.fading } true false).1
    (Or.inr (Or.inl rfl))

/-- C8 counterexample: a second `Show()` call made while the state is still
`STATE_CREATED` (the worker thread has not run yet) passes the state check,
calls `thread_.Start` again and fires no assertion at all — so it is not
true that every second call is flagged by a debug assertion. -/
theorem C8_counterexample :
    (run init [Ev.showEv, Ev.showEv]).snd =
      [Eff.threadStart, Eff.threadStart] ∧
    Eff.assertFired ∉ (run init [Ev.showEv, Ev.showEv]).snd := by
  refine ⟨by decide, by decide⟩

/-- C8 amended: `Show()` flags a contract violation with `ASSERT1(false)`
and does not start the thread exactly when the state has left
`STATE_CREATED` (for example after `Dismiss()` moved it to `STATE_CLOSED`);
a call finding the state still `STATE_CREATED` starts the worker thread
without any assertion, even if it is a second call. -/
theorem C8_amended_show_contract (s : Sys) :
    (s.state ≠ WindowState.created → Show s = (s, [Eff.assertFired])) ∧
    (s.state = WindowState.created →
        Show s = ({ s with pendingRun := true }, [Eff.threadStart])) := by
  constructor <;> intro h <;> simp [Show, h]

/-- Witness for the amended C8 at a concrete CLOSED state. -/
theorem C8_amended_show_contract_witness :
    Show { init with state := WindowState.closed } =
      ({ init with state := WindowState.closed }, [Eff.assertFired]) :=
  (C8_amended_show_contract { init with state := WindowState.closed }).1
    (by decide)

/-- C6: `Dismiss()` in a reachable `STATE_CREATED` state goes directly to
`STATE_CLOSED`; no native window was ever created, no timer was ever armed,
no side effect is performed, and window and timer stay absent afterwards. -/
theorem C6_dismiss_in_created (s : Sys) (a : Bool) (hr : Reachable s)
    (hs : s.state = WindowState.created) :
    s.window = false ∧ s.timer_created = false ∧ s.timerOn = false ∧
    Dismiss s a = ({ s with state := WindowState.closed }, []) ∧
    (Dismiss s a).fst.window = false ∧
    (Dismiss s a).fst.timer_created = false ∧
    (Dismiss s a).fst.timerOn = false := by
  obtain ⟨-, -, h3, -, -, -, -, -, -⟩ := Inv_reachable s hr
  obtain ⟨hton, hcp, hqp, hw, htc, hlr⟩ := h3 hs
  have hD : Dismiss s a = ({ s with state := WindowState.closed }, []) := by
    simp [Dismiss, hs, SwitchToState]
  refine ⟨hw, htc, hton, hD, ?_, ?_, ?_⟩ <;> rw [hD]
  · exact hw
  · exact htc
  · exact hton

/-- Witness for C6 at the freshly constructed object. -/
theorem C6_dismiss_in_created_witness :
    Dismiss init true = ({ init with state := WindowState.closed }, []) :=
  (C6_dismiss_in_created init true ⟨[], rfl⟩ rfl).2.2.2.1

end Omaha

namespace Omaha

/-- C5: if `SetTimer` fails during the SHOW_NORMAL to FADING transition, the
transition posts the close request immediately, applies no opacity at all,
and fires no assertion — the failure is only logged, never propagated. -/
theorem C5_timer_arm_failure (s : Sys) (hr : Reachable s)
    (hs : s.state = WindowState.showNormal) :
    Dismiss s false =
      ({ s with state := WindowState.fading, timer_created := false,
                timerOn := false, closePending := true },
       [Eff.requestClose]) ∧
    countApply (Dismiss s false).snd = 0 ∧
    Eff.assertFired ∉ (Dismiss s false).snd := by
  obtain ⟨-, -, -, h4, -, -, -, -, -⟩ := Inv_reachable s hr
  obtain ⟨-, -, hw, -, -⟩ := h4 hs
  have hD : Dismiss s false =
      ({ s with state := WindowState.fading, timer_created := false,
                timerOn := false, closePending := true },
       [Eff.requestClose]) := by
    simp [Dismiss, hs, SwitchToState, Close, hw]
  refine ⟨hD, ?_, ?_⟩ <;> rw [hD] <;> simp [countApply]

/-- Witness for C5 at the concrete reachable SHOW_NORMAL state. -/
theorem C5_timer_arm_failure_witness :
    countApply (Dismiss (run init [Ev.showEv, Ev.runBody true]).fst false).snd
      = 0 :=
  (C5_timer_arm_failure (run init [Ev.showEv, Ev.runBody true]).fst
      ⟨[Ev.showEv, Ev.runBody true], rfl⟩ (by decide)).2.1

/-- C7: the `WM_DESTROY` handler, reached in a non-CLOSED state with the
window alive and the loop pumping, kills the close-timer exactly when
`timer_created_` is set, posts the quit message, and the subsequent exit of
the message loop switches the state to `STATE_CLOSED` and lets the worker
thread return. -/
theorem C7_destroy_notification (s : Sys) (hns : s.state ≠ WindowState.closed)
    (hw : s.window = true) (hlr : s.loopRunning = true) :
    (s.timer_created = true →
        (OnDestroy s).fst.timerOn = false ∧
        (OnDestroy s).snd = [Eff.killTimer, Eff.postQuit]) ∧
    (s.timer_created = false → (OnDestroy s).snd = [Eff.postQuit]) ∧
    Eff.postQuit ∈ (OnDestroy s).snd ∧
    (OnDestroy s).fst.quitPosted = true ∧
    (step (OnDestroy s).fst Ev.loopExit).fst.state = WindowState.closed ∧
    (step (OnDestroy s).fst Ev.loopExit).fst.loopRunning = false := by
  obtain ⟨st, ai, tc, w, ton, cp, qp, pr, lr⟩ := s
  cases tc <;> simp_all [OnDestroy, step, SwitchToState]

/-- Witness for C7 at a concrete FADING state with the timer armed. -/
theorem C7_destroy_notification_witness :
    (step (OnDestroy
        (Sys.mk WindowState.fading 0 true true true true false false
          true)).fst Ev.loopExit).fst.state = WindowState.closed :=
  (C7_destroy_notification
      (Sys.mk WindowState.fading 0 true true true true false false true)
      (by decide) rfl rfl).2.2.2.2.1

/-- Ordering facts between states that follow from the rank comparison. -/
theorem stateRank_order_facts (st st' : WindowState)
    (h : stateRank st ≤ stateRank st') :
    (st ≠ WindowState.created → st' ≠ WindowState.created) ∧
    ((st = WindowState.showNormal ∨ st = WindowState.fading ∨
        st = WindowState.closed) → st' ≠ WindowState.initialized) ∧
    (st = WindowState.closed → st' = WindowState.closed) := by
  cases st <;> cases st' <;> simp_all [stateRank]

/-- C9: along every sequence of transitions the state rank never decreases,
so the machine never re-enters `STATE_CREATED` or `STATE_INITIALIZED` once
it has left them, and `STATE_CLOSED` is terminal. -/
theorem C9_no_reentry_closed_terminal (s : Sys) (evs : List Ev) :
    stateRank s.state ≤ stateRank (run s evs).fst.state ∧
    (s.state ≠ WindowState.created →
        (run s evs).fst.state ≠ WindowState.created) ∧
    ((s.state = WindowState.showNormal ∨ s.state = WindowState.fading ∨
        s.state = WindowState.closed) →
        (run s evs).fst.state ≠ WindowState.initialized) ∧
    (s.state = WindowState.closed →
        (run s evs).fst.state = WindowState.closed) := by
  have hm := stateRank_le_run s evs
  exact ⟨hm, (stateRank_order_facts _ _ hm).1,
    (stateRank_order_facts _ _ hm).2.1, (stateRank_order_facts _ _ hm).2.2⟩

/-- Witness for C9: a CLOSED state stays CLOSED over a concrete run. -/
theorem C9_no_reentry_closed_terminal_witness :
    (run { init with state := WindowState.closed }
        [Ev.tick, Ev.dismiss true, Ev.showEv]).fst.state =
      WindowState.closed :=
  (C9_no_reentry_closed_terminal { init with state := WindowState.closed }
      [Ev.tick, Ev.dismiss true, Ev.showEv]).2.2.2 rfl

/-- C1 counterexample: the seven fade ticks taken from the start of the fade
perform six opacity applications (ticks one to six), not seven — the seventh
tick closes instead of applying opacity. -/
theorem C1_counterexample :
    countApply (run fadeStart (List.replicate 7 Ev.tick)).snd ≠ 7 := by
  decide

/-- C1 amended: starting at the fade entered from SHOW_NORMAL with the
8-entry table, seven successive ticks produce exactly six opacity-apply
side effects followed by one close request on the seventh tick, and after
that an eighth tick can never fire. -/
theorem C1_amended_seven_ticks :
    (run fadeStart (List.replicate 7 Ev.tick)).snd =
      [Eff.applyOpacity 237, Eff.applyOpacity 216, Eff.applyOpacity 191,
       Eff.applyOpacity 158, Eff.applyOpacity 119, Eff.applyOpacity 76,
       Eff.requestClose] ∧
    countApply (run fadeStart (List.replicate 7 Ev.tick)).snd = 6 ∧
    (∀ evs : List Ev,
        tickEnabled
            (run (run fadeStart (List.replicate 7 Ev.tick)).fst evs).fst =
          false) := by
  refine ⟨by decide, by decide, fun evs => ?_⟩
  have h : NoMoreTicks (run fadeStart (List.replicate 7 Ev.tick)).fst :=
    ⟨Or.inl (by decide), by decide⟩
  exact (NoMoreTicks_run _ evs h).2

end Omaha

namespace Omaha

/-- No step changes `timer_created_` unless it is the SHOW_NORMAL → FADING
transition (the only write to the flag in the source is the `SetTimer` line
of `SwitchToState`). -/
theorem step_timer_created (s : Sys) (e : Ev)
    (hns : s.state ≠ WindowState.showNormal) :
    (step s e).fst.timer_created = s.timer_created := by
  obtain ⟨st, ai, tc, w, ton, cp, qp, pr, lr⟩ := s
  cases e with
  | showEv =>
      simp only [step, Show]
      split <;> rfl
  | dismiss a =>
      cases st <;> simp_all [step, Dismiss, SwitchToState, Close]
  | runBody c =>
      cases pr <;> cases c <;> cases st <;>
        simp_all [step, RunEntry, InitializeWindow, SwitchToState]
  | tick =>
      simp only [step]
      split
      · simp only [OnTimer, Close]
        split
        · rfl
        · split <;> rfl
      · rfl
  | closeMsg =>
      simp only [step]
      split
      · simp only [processCloseMessage, OnDestroy]
        split <;> rfl
      · rfl
  | loopExit =>
      simp only [step]
      split
      · simp [SwitchToState]
      · rfl

/-- C3 counterexample: a complete successful fade reaches a reachable
`STATE_CLOSED` state whose `timer_created_` flag is still `true`, although
the timer was killed on destroy — so the flag is not false in every state
other than FADING. -/
theorem C3_counterexample :
    Reachable (run init fullFade).fst ∧
    (run init fullFade).fst.state = WindowState.closed ∧
    (run init fullFade).fst.timer_created = true := by
  exact ⟨⟨fullFade, rfl⟩, by decide, by decide⟩

/-- C3 amended: `timer_created_` records that a timer was successfully
created at some point and is never reset by any step; the OS timer itself
is installed only while FADING (in every reachable state `timerOn = true`
implies the state is FADING), and in the CLOSED state after a full fade the
timer is uninstalled even though the flag remains `true`. -/
theorem C3_amended_timer_flag (s : Sys) (e : Ev) (hr : Reachable s) :
    (s.timer_created = true → (step s e).fst.timer_created = true) ∧
    (s.timerOn = true → s.state = WindowState.fading) ∧
    (run init fullFade).fst.timerOn = false := by
  obtain ⟨h1, h2, h3, h4, h5, h6, h7, h8, h9⟩ := Inv_reachable s hr
  refine ⟨?_, ?_, by decide⟩
  · intro htc
    have hns : s.state ≠ WindowState.showNormal := by
      intro hsn
      have hf := (h4 hsn).2.2.2.1
      rw [hf] at htc
      exact Bool.noConfusion htc
    rw [step_timer_created s e hns]
    exact htc
  · intro hton
    cases hcp : s.closePending
    · cases hqp : s.quitPosted
      · exact (h2 hton hcp hqp).1
      · have hf := h7 hqp
        rw [hton] at hf
        exact Bool.noConfusion hf
    · exact h5 hcp

/-- Witness for the amended C3 at the concrete start-of-fade state. -/
theorem C3_amended_timer_flag_witness :
    (step fadeStart Ev.tick).fst.timer_created = true :=
  (C3_amended_timer_flag fadeStart Ev.tick ⟨fadeSetup, rfl⟩).1 (by decide)

/-- C2: a fade tick taken in a reachable state decrements `alpha_index_` by
exactly one and never makes it negative; the tick that reaches zero performs
no opacity application but exactly one close request, and after it no
further tick can ever fire. -/
theorem C2_fade_tick (s : Sys) (hr : Reachable s)
    (ht : tickEnabled s = true) :
    s.state = WindowState.fading ∧ 1 ≤ s.alpha_index ∧
    (step s Ev.tick).fst.alpha_index = s.alpha_index - 1 ∧
    0 ≤ (step s Ev.tick).fst.alpha_index ∧
    ((step s Ev.tick).fst.alpha_index = 0 →
        (step s Ev.tick).snd = [Eff.requestClose] ∧
        (∀ evs : List Ev,
            tickEnabled (run (step s Ev.tick).fst evs).fst = false)) := by
  obtain ⟨h1, h2, -, -, -, -, -, -, -⟩ := Inv_reachable s hr
  have ht' := ht
  simp only [tickEnabled, Bool.and_eq_true, Bool.not_eq_true'] at ht'
  obtain ⟨⟨⟨hton, hlr⟩, hcp⟩, hqp⟩ := ht'
  obtain ⟨hst, hai, -, hw⟩ := h2 hton hcp hqp
  have h0 : 0 < s.alpha_index := by omega
  have hstep : step s Ev.tick = OnTimer s := by simp [step, ht]
  rw [hstep]
  by_cases hz : s.alpha_index - 1 = 0
  · have hOT : OnTimer s =
        ({ s with alpha_index := s.alpha_index - 1, closePending := true },
         [Eff.requestClose]) := by
      simp [OnTimer, Close, hst, hw, h0, hz]
    rw [hOT]
    refine ⟨hst, hai, rfl, by simp [hz], fun _ => ⟨rfl, fun evs => ?_⟩⟩
    have hq : NoMoreTicks
        { s with alpha_index := s.alpha_index - 1, closePending := true } :=
      ⟨Or.inl hst, by simp [tickEnabled]⟩
    exact (NoMoreTicks_run _ evs hq).2
  · have hOT : OnTimer s =
        ({ s with alpha_index := s.alpha_index - 1 },
         [Eff.applyOpacity (AlphaScaleToAlphaValue
            (kAlphaScales.getD (s.alpha_index - 1).toNat 0))]) := by
      simp [OnTimer, Close, hst, hw, h0, hz]
    rw [hOT]
    exact ⟨hst, hai, rfl, by simp; omega, fun hcontra => absurd hcontra hz⟩

/-- Witness for C2 at the concrete start-of-fade state. -/
theorem C2_fade_tick_witness :
    (step fadeStart Ev.tick).fst.alpha_index = fadeStart.alpha_index - 1 :=
  (C2_fade_tick fadeStart ⟨fadeSetup, rfl⟩ (by decide)).2.2.1

end Omaha
